import Mathlib

/-!
Verification of the UTM/UPS coordinate conversion library (utm.cpp / utm.h).

The development shallowly embeds the grid-selection and projection code.

Conventions of the embedding:

* The C enum GridZone is a plain integer type in the source (values
  UTM_ZONE_AUTO = 0, UTM_ZONE_1 .. UTM_ZONE_60 = 1..60, UPS_NORTH = 61,
  UPS_SOUTH = 62, GRID_AUTO = 63), and the code casts freely between it
  and unsigned integers, so it is embedded as a natural number.
* The C enum Hemisphere (HEMI_AUTO = 0, HEMI_NORTH = 1, HEMI_SOUTH = 2)
  is embedded as a three-constructor inductive type; the source never
  casts it to an integer inside the conversion routines.
* Angles: the source works in radians and compares against
  RAD(c) = c/180*pi.  Since x maps to x*pi/180 strictly monotonically and
  exactly (in real arithmetic), every comparison lat_rad >= RAD(c) holds
  iff lat_deg >= c, and (lon_rad + RAD(180))/RAD(6) = (lon_deg + 180)/6.
  The zone-resolution logic is therefore embedded over rational degrees,
  which keeps it decidable; the transcendental projection formulas are
  embedded over the reals, with degree inputs converted by *pi/180.
* C doubles are modelled as real numbers (rationals where only ring
  operations, comparisons and floor occur); IEEE rounding is outside the
  scope of the embedding.
* Out-parameters that a function can leave unassigned are modelled as
  Option-valued results, none meaning the source never wrote the output.
* The one loop in the source (the legacy DMATM inverse TM iteration,
  a while(1) loop) is embedded with an explicit fuel parameter; a none
  result means the loop has not exited within the given number of
  iterations.
-/

open Real

open scoped Classical

namespace Utm

/-- Hemisphere enum of utm.h: HEMI_AUTO, HEMI_NORTH, HEMI_SOUTH. -/
inductive Hemisphere : Type
  | auto : Hemisphere
  | north : Hemisphere
  | south : Hemisphere
deriving DecidableEq

/-- GridZone is a plain integer in the source; these are the named values. -/
def UTM_ZONE_AUTO : ℕ := 0

/-- GridZone enum value UPS_NORTH (follows UTM_ZONE_60 = 60). -/
def UPS_NORTH : ℕ := 61

/-- GridZone enum value UPS_SOUTH. -/
def UPS_SOUTH : ℕ := 62

/-- GridZone enum value GRID_AUTO. -/
def GRID_AUTO : ℕ := 63

/-- The primitive projection `geographic_to_grid` dispatches to, together
with the parameters it computes for it: a polar-stereographic call with the
(already forced) hemisphere, or a transverse-Mercator call with the central
meridian (in degrees) and false northing (in meters). -/
inductive Prim : Type
  | ps : Hemisphere → Prim
  | tm : ℚ → ℚ → Prim
deriving DecidableEq

/-- Whether a dispatch descriptor is a transverse-Mercator dispatch. -/
def Prim.isTM : Prim → Bool
  | .tm _ _ => true
  | .ps _ => false

/-- Result of the zone/hemisphere resolution performed by
`geographic_to_grid`: the zone value stored into *zone, the hemisphere
stored into *hemi, and the primitive dispatched. -/
structure GridResult : Type where
  zone : ℕ
  hemi : Hemisphere
  prim : Prim
deriving DecidableEq

/-- Truncation toward zero, as the C cast in fmod does. -/
def qtrunc (q : ℚ) : ℤ := if 0 ≤ q then ⌊q⌋ else ⌈q⌉

/-- C fmod on rationals: x - y*trunc(x/y), the remainder with the sign of x. -/
def cfmod (x y : ℚ) : ℚ := x - y * (qtrunc (x / y) : ℚ)

/-- Longitude normalization of `geographic_to_grid` (degrees): longitudes
outside [-180, 180] are wrapped by fmod(fmod(lon,360)+360,360) and shifted
into (-180, 180]; longitudes already in [-180, 180] pass through unchanged. -/
def normLon (lon : ℚ) : ℚ :=
  if 180 < lon ∨ lon < -180 then
    let l := cfmod (cfmod lon 360 + 360) 360
    if 180 < l then l - 360 else l
  else lon

/-- Automatic UTM zone number of the 2025 `geographic_to_grid` (degrees):
the plain 6-degree formula with the Norway exception.  In the 2025 source
the Svalbard partition is NOT part of this computation: its branch was
attached as an else-if to the explicit-zone case. -/
def utmZoneAuto (lat lon : ℚ) : ℕ :=
  let z : ℕ := (⌊(lon + 180) / 6⌋).toNat + 1
  if 56 ≤ lat ∧ lat < 64 ∧ 3 ≤ lon ∧ lon < 12 then 32 else z

/-- The Svalbard else-if branch of the 2025 `geographic_to_grid`: applied to
a zone value that is already in [1,60] (an explicit zone request), it
replaces the zone by the 12-degree Svalbard partition when the point lies
at 72 <= lat < 84 and 0 <= lon, leaving the zone unchanged for lon >= 42. -/
def svalbardOverride (lat lon : ℚ) (z : ℕ) : ℕ :=
  if 72 ≤ lat ∧ lat < 84 ∧ 0 ≤ lon then
    if lon < 9 then 31
    else if lon < 21 then 33
    else if lon < 33 then 35
    else if lon < 42 then 37
    else z
  else z

/-- Automatic UTM zone number of the pre-2025 `geographic_to_grid`
(degrees): the 6-degree formula with the Norway exception and, as an
else-if inside the same automatic branch, the Svalbard 12-degree
partition. -/
def utmZoneAutoPre2025 (lat lon : ℚ) : ℕ :=
  let z : ℕ := (⌊(lon + 180) / 6⌋).toNat + 1
  if 56 ≤ lat ∧ lat < 64 ∧ 3 ≤ lon ∧ lon < 12 then 32
  else if 72 ≤ lat ∧ lat < 84 ∧ 0 ≤ lon then
    if lon < 9 then 31
    else if lon < 21 then 33
    else if lon < 33 then 35
    else if lon < 42 then 37
    else z
  else z

/-- Zone and hemisphere resolution of the current (2025) version of
`geographic_to_grid` (utm.cpp): validation of the latitude, longitude
normalization, GRID_AUTO resolution to UPS/UTM, zone selection, hemisphere
defaulting and computation of the TM central meridian (degrees) and false
northing.  Returns none exactly when the source returns 0 (failure). -/
def resolveGrid (lat lon : ℚ) (zone0 : ℕ) (hemi0 : Hemisphere) :
    Option GridResult :=
  if 90 < lat ∨ lat < -90 then none
  else
    let lon1 := normLon lon
    let zone1 : ℕ :=
      if zone0 = GRID_AUTO then
        if 84 ≤ lat then UPS_NORTH
        else if lat < -80 then UPS_SOUTH
        else UTM_ZONE_AUTO
      else zone0
    if zone1 = UPS_NORTH ∨ zone1 = UPS_SOUTH then
      let h : Hemisphere := if zone1 = UPS_NORTH then .north else .south
      some ⟨zone1, h, .ps h⟩
    else
      let izone : ℕ :=
        if zone1 < 1 ∨ 60 < zone1 then utmZoneAuto lat lon1
        else svalbardOverride lat lon1 zone1
      let h : Hemisphere :=
        if hemi0 ≠ .north ∧ hemi0 ≠ .south then
          if 0 ≤ lat then .north else .south
        else hemi0
      let lonMer : ℚ := ((izone : ℚ) - 1) * 6 - 180 + 3
      let fn : ℚ := if h = .north then 0 else 10000000
      some ⟨izone, h, .tm lonMer fn⟩

/-- Zone and hemisphere resolution of the pre-2025 version of
`geographic_to_grid`, identical to the current one except that the
Svalbard partition is applied inside the automatic branch (and never to an
explicit zone request). -/
def resolveGridPre2025 (lat lon : ℚ) (zone0 : ℕ) (hemi0 : Hemisphere) :
    Option GridResult :=
  if 90 < lat ∨ lat < -90 then none
  else
    let lon1 := normLon lon
    let zone1 : ℕ :=
      if zone0 = GRID_AUTO then
        if 84 ≤ lat then UPS_NORTH
        else if lat < -80 then UPS_SOUTH
        else UTM_ZONE_AUTO
      else zone0
    if zone1 = UPS_NORTH ∨ zone1 = UPS_SOUTH then
      let h : Hemisphere := if zone1 = UPS_NORTH then .north else .south
      some ⟨zone1, h, .ps h⟩
    else
      let izone : ℕ :=
        if zone1 < 1 ∨ 60 < zone1 then utmZoneAutoPre2025 lat lon1
        else zone1
      let h : Hemisphere :=
        if hemi0 ≠ .north ∧ hemi0 ≠ .south then
          if 0 ≤ lat then .north else .south
        else hemi0
      let lonMer : ℚ := ((izone : ℚ) - 1) * 6 - 180 + 3
      let fn : ℚ := if h = .north then 0 else 10000000
      some ⟨izone, h, .tm lonMer fn⟩

/-- The hemisphere stored by the UTM branch of geographic_to_grid: an
explicit north/south request is kept, anything else defaults by the sign
of the latitude. -/
def utmHemi (lat : ℚ) (h0 : Hemisphere) : Hemisphere :=
  if h0 ≠ .north ∧ h0 ≠ .south then
    if 0 ≤ lat then .north else .south
  else h0

/-- The UTM false northing (meters) for a resolved hemisphere: 0 in the
north, 10000000 in the south. -/
def utmFn (h : Hemisphere) : ℚ := if h = .north then 0 else 10000000

/-- Validation, hemisphere override and dispatch of `grid_to_geographic`:
a UPS zone forces the hemisphere and dispatches PS; otherwise the zone
must be in [1,60] and the hemisphere must be north or south, and the TM
inverse is dispatched with the zone central meridian (degrees) and false
northing.  none is the failure return (0) of the source. -/
def gridToGeographicResolve (zone : ℕ) (hemi : Hemisphere) :
    Option (Hemisphere × Prim) :=
  if zone = UPS_NORTH ∨ zone = UPS_SOUTH then
    let h : Hemisphere := if zone = UPS_NORTH then .north else .south
    some (h, .ps h)
  else if zone < 1 ∨ 60 < zone then none
  else if hemi ≠ .north ∧ hemi ≠ .south then none
  else
    let lonMer : ℚ := ((zone : ℚ) - 1) * 6 - 180 + 3
    let fn : ℚ := if hemi = .north then 0 else 10000000
    some (hemi, .tm lonMer fn)

/-- The invariant claimed for resolved zones: a UTM zone number 1..60 with a
TM dispatch, or a UPS marker matching the pole of the PS projection
actually dispatched. -/
def zoneConsistent (r : GridResult) : Prop :=
  (1 ≤ r.zone ∧ r.zone ≤ 60 ∧ r.prim.isTM = true) ∨
  (r.zone = UPS_NORTH ∧ r.prim = .ps .north) ∨
  (r.zone = UPS_SOUTH ∧ r.prim = .ps .south)

instance (r : GridResult) : Decidable (zoneConsistent r) := by
  unfold zoneConsistent
  infer_instance

/-- The C library function atanh, x in (-1,1). -/
noncomputable def atanh (x : ℝ) : ℝ := Real.log ((1 + x) / (1 - x)) / 2

/-- The C library function atan2(y,x): the angle of the point (x,y). -/
noncomputable def atan2 (y x : ℝ) : ℝ :=
  if 0 < x then arctan (y / x)
  else if x < 0 ∧ 0 ≤ y then arctan (y / x) + π
  else if x < 0 then arctan (y / x) - π
  else if 0 < y then π / 2
  else if y < 0 then -(π / 2)
  else 0

/-- geographic_to_tm_sphere (utm.cpp): exact spherical TM forward; returns
the pair (N, E). -/
noncomputable def geographic_to_tm_sphere
    (R k0 lon_mer FN FE lat_rad lon_rad : ℝ) : ℝ × ℝ :=
  let Rk0 := R * k0
  let B := Real.cos lat_rad * Real.sin (lon_rad - lon_mer)
  (FN + Rk0 * arctan (Real.tan lat_rad / Real.cos (lon_rad - lon_mer)),
   FE + Rk0 * atanh B)

/-- tm_to_geographic_sphere (utm.cpp): exact spherical TM inverse; returns
the pair (lat, lon). -/
noncomputable def tm_to_geographic_sphere
    (R k0 lon_mer FN FE N E : ℝ) : ℝ × ℝ :=
  let Rk0 := R * k0
  let D := (N - FN) / Rk0
  (Real.arcsin (Real.sin D / Real.cosh ((E - FE) / Rk0)),
   lon_mer + arctan (Real.sinh ((E - FE) / Rk0) / Real.cos D))

/-- geographic_to_ps_sphere (utm.cpp): spherical PS forward.  The result
is the pair of out-parameters (N, E); a none component means the source
leaves that output unassigned (as happens for HEMI_AUTO, where neither
branch of the if/else-if is taken). -/
noncomputable def geographic_to_ps_sphere
    (R k0 : ℝ) (hemi : Hemisphere) (FN FE lat_rad lon_rad : ℝ) :
    Option ℝ × Option ℝ :=
  let Rk0 := R * k0
  match hemi with
  | .north =>
      (some (FN - 2 * Rk0 * Real.tan (π / 4 - lat_rad / 2) * Real.cos lon_rad),
       some (FE + 2 * Rk0 * Real.tan (π / 4 - lat_rad / 2) * Real.sin lon_rad))
  | .south =>
      (some (FN + 2 * Rk0 * Real.tan (π / 4 + lat_rad / 2) * Real.cos lon_rad),
       some (FE + 2 * Rk0 * Real.tan (π / 4 + lat_rad / 2) * Real.sin lon_rad))
  | .auto => (none, none)

/-- ps_to_geographic_sphere (utm.cpp): spherical PS inverse.  Result is
the pair of out-parameters (lat, lon); none components are outputs the
source leaves unassigned (both, for HEMI_AUTO). -/
noncomputable def ps_to_geographic_sphere
    (R k0 : ℝ) (hemi : Hemisphere) (FN FE N E : ℝ) :
    Option ℝ × Option ℝ :=
  let Rk0 := R * k0
  let x := E - FE
  let y := N - FN
  let rho := Real.sqrt (x * x + y * y)
  let c := 2 * arctan (rho / (2 * Rk0))
  match hemi with
  | .north => (some (Real.arcsin (Real.cos c)), some (atan2 x (-y)))
  | .south => (some (-Real.arcsin (Real.cos c)), some (atan2 x y))
  | .auto => (none, none)

/-- The helper poly4 of utm.cpp: c0 + x*(c1 + x*(c2 + x*(c3 + x*c4))). -/
def poly4 (x c0 c1 c2 c3 c4 : ℝ) : ℝ := c0 + x * (c1 + x * (c2 + x * (c3 + x * c4)))

/-- The helper SQR of utm.cpp. -/
def SQR (x : ℝ) : ℝ := x * x

/-- geographic_to_tm (utm.cpp, 2025): ellipsoidal TM forward by the
Karney/Kawase 4th-order series in the third flattening; returns (N, E). -/
noncomputable def geographic_to_tm
    (a e2 k0 lon_mer FN FE lat_rad lon_rad : ℝ) : ℝ × ℝ :=
  let f := 1 - Real.sqrt (1 - e2)
  let n := f / (2 - f)
  let A := a / (1 + n) * poly4 (n * n) 1 (1 / 4) (1 / 64) (1 / 256) (25 / 16384)
  let a1 := poly4 n 0 (1 / 2) (-2 / 3) (5 / 16) (41 / 180)
  let a2 := poly4 n 0 0 (13 / 48) (-3 / 5) (557 / 1440)
  let a3 := poly4 n 0 0 0 (61 / 240) (-103 / 140)
  let a4 := poly4 n 0 0 0 0 (49561 / 161280)
  let sin_phi := Real.sin lat_rad
  let t_factor := 2 * Real.sqrt n / (1 + n)
  let t := Real.sinh (atanh sin_phi - t_factor * atanh (t_factor * sin_phi))
  let xi := arctan (t / Real.cos (lon_rad - lon_mer))
  let eta := atanh (Real.sin (lon_rad - lon_mer) / Real.sqrt (1 + t * t))
  (FN + k0 * A * (xi + a1 * Real.sin (2 * xi) * Real.cosh (2 * eta)
      + a2 * Real.sin (4 * xi) * Real.cosh (4 * eta)
      + a3 * Real.sin (6 * xi) * Real.cosh (6 * eta)
      + a4 * Real.sin (8 * xi) * Real.cosh (8 * eta)),
   FE + k0 * A * (eta + a1 * Real.cos (2 * xi) * Real.sinh (2 * eta)
      + a2 * Real.cos (4 * xi) * Real.sinh (4 * eta)
      + a3 * Real.cos (6 * xi) * Real.sinh (6 * eta)
      + a4 * Real.cos (8 * xi) * Real.sinh (8 * eta)))

/-- Output record of geographic_to_tm_with_convergence_and_scale. -/
structure TmFull : Type where
  N : ℝ
  E : ℝ
  gamma : ℝ
  k : ℝ

/-- geographic_to_tm_with_convergence_and_scale (utm.cpp, 2025): the
Karney/Kawase forward TM also reporting grid convergence (gamma) and
point scale (k). -/
noncomputable def geographic_to_tm_with_convergence_and_scale
    (a e2 k0 lon_mer FN FE lat_rad lon_rad : ℝ) : TmFull :=
  let f := 1 - Real.sqrt (1 - e2)
  let n := f / (2 - f)
  let A := a / (1 + n) * poly4 (n * n) 1 (1 / 4) (1 / 64) (1 / 256) (25 / 16384)
  let a1 := poly4 n 0 (1 / 2) (-2 / 3) (5 / 16) (41 / 180)
  let a2 := poly4 n 0 0 (13 / 48) (-3 / 5) (557 / 1440)
  let a3 := poly4 n 0 0 0 (61 / 240) (-103 / 140)
  let a4 := poly4 n 0 0 0 0 (49561 / 161280)
  let sin_phi := Real.sin lat_rad
  let t_factor := 2 * Real.sqrt n / (1 + n)
  let t := Real.sinh (atanh sin_phi - t_factor * atanh (t_factor * sin_phi))
  let xi := arctan (t / Real.cos (lon_rad - lon_mer))
  let eta := atanh (Real.sin (lon_rad - lon_mer) / Real.sqrt (1 + t * t))
  let sigma := 1 + 2 * (a1 * Real.cos (2 * xi) * Real.cosh (2 * eta)
      + 2 * a2 * Real.cos (4 * xi) * Real.cosh (4 * eta)
      + 3 * a3 * Real.cos (6 * xi) * Real.cosh (6 * eta)
      + 4 * a4 * Real.cos (8 * xi) * Real.cosh (8 * eta))
  let tau := 2 * (a1 * Real.sin (2 * xi) * Real.sinh (2 * eta)
      + 2 * a2 * Real.sin (4 * xi) * Real.sinh (4 * eta)
      + 3 * a3 * Real.sin (6 * xi) * Real.sinh (6 * eta)
      + 4 * a4 * Real.sin (8 * xi) * Real.sinh (8 * eta))
  { N := FN + k0 * A * (xi + a1 * Real.sin (2 * xi) * Real.cosh (2 * eta)
      + a2 * Real.sin (4 * xi) * Real.cosh (4 * eta)
      + a3 * Real.sin (6 * xi) * Real.cosh (6 * eta)
      + a4 * Real.sin (8 * xi) * Real.cosh (8 * eta))
    E := FE + k0 * A * (eta + a1 * Real.cos (2 * xi) * Real.sinh (2 * eta)
      + a2 * Real.cos (4 * xi) * Real.sinh (4 * eta)
      + a3 * Real.cos (6 * xi) * Real.sinh (6 * eta)
      + a4 * Real.cos (8 * xi) * Real.sinh (8 * eta))
    gamma := arctan ((tau * Real.sqrt (1 + t * t)
        + sigma * t * Real.tan (lon_rad - lon_mer)) /
      (sigma * Real.sqrt (1 + t * t)
        - tau * t * Real.tan (lon_rad - lon_mer)))
    k := k0 * A / a * Real.sqrt ((1 + SQR ((1 - n) / (1 + n) * Real.tan lat_rad))
        * (sigma * sigma + tau * tau)
        / (t * t + SQR (Real.cos (lon_rad - lon_mer)))) }

/-- geographic_to_ps (utm.cpp): ellipsoidal PS forward.  Result is the
pair of out-parameters (N, E).  The easting is always assigned (for
HEMI_AUTO the if/else on the half-angle tangent takes the else, i.e. the
south-hemisphere branch), but the northing is assigned only for a north
or south hemisphere. -/
noncomputable def geographic_to_ps
    (a e2 k0 : ℝ) (hemi : Hemisphere) (FN FE lat_rad lon_rad : ℝ) :
    Option ℝ × Option ℝ :=
  let e := Real.sqrt e2
  let C0 := 2 * a / Real.sqrt (1 - e2) * ((1 - e) / (1 + e)) ^ (e / 2)
  let s_lat := Real.sin lat_rad
  let tanzhalf :=
    if hemi = .north then
      ((1 + e * s_lat) / (1 - e * s_lat)) ^ (e / 2) * Real.tan (π / 4 - lat_rad / 2)
    else
      ((1 - e * s_lat) / (1 + e * s_lat)) ^ (e / 2) * Real.tan (π / 4 + lat_rad / 2)
  let R := k0 * C0 * tanzhalf
  (match hemi with
   | .north => some (FN - R * Real.cos lon_rad)
   | .south => some (FN + R * Real.cos lon_rad)
   | .auto => none,
   some (FE + R * Real.sin lon_rad))

/-- ps_to_geographic (utm.cpp): ellipsoidal PS inverse.  Result is the
pair of out-parameters (lat, lon).  At the exact origin the longitude is
written as 0 and the latitude only for a north/south hemisphere; off the
origin, neither output is written for HEMI_AUTO (and the source even
reads the unassigned longitude out-parameter to compute R, which is
irrelevant here since the latitude it would feed is not written). -/
noncomputable def ps_to_geographic
    (a e2 k0 : ℝ) (hemi : Hemisphere) (FN FE N E : ℝ) :
    Option ℝ × Option ℝ :=
  let e := Real.sqrt e2
  let C0 := 2 * a / Real.sqrt (1 - e2) * ((1 - e) / (1 + e)) ^ (e / 2)
  let e4 := e2 * e2
  let e6 := e4 * e2
  let e8 := e6 * e2
  let Abar := e2 / 2 + 5 * e4 / 24 + e6 / 12 + 13 * e8 / 360
  let Bbar := 7 * e4 / 48 + 29 * e6 / 240 + 811 * e8 / 11520
  let Cbar := 7 * e6 / 120 + 81 * e8 / 1120
  let Dbar := 4279 * e8 / 161280
  let x := E - FE
  let y := N - FN
  if x = 0 ∧ y = 0 then
    (match hemi with
     | .north => some (π / 2)
     | .south => some (-(π / 2))
     | .auto => none,
     some 0)
  else
    let philat : ℝ → ℝ := fun lonv =>
      let R := if y = 0 then |x| else if x = 0 then |y| else |x / Real.sin lonv|
      let tanzhalf := R / (k0 * C0)
      let chi := π / 2 - 2 * arctan tanzhalf
      let s2chi := Real.sin (2 * chi)
      let c2chi := Real.cos (2 * chi)
      let s4chi := 2 * s2chi * c2chi
      let c4chi := c2chi * c2chi - s2chi * s2chi
      let s6chi := s4chi * c2chi + s2chi * c4chi
      let s8chi := 2 * s4chi * c4chi
      chi + Abar * s2chi + Bbar * s4chi + Cbar * s6chi + Dbar * s8chi
    match hemi with
    | .north => (some (philat (atan2 x (-y))), some (atan2 x (-y)))
    | .south => (some (-(philat (atan2 x y))), some (atan2 x y))
    | .auto => (none, none)

/-- The meridional arc length S of the legacy DMATM routines (utm.cpp):
the body recomputed on every iteration of the dmatm_tm_to_geographic
loop, including the product-formula multiple angles. -/
noncomputable def dmatmS (a n phi : ℝ) : ℝ :=
  let s := Real.sin phi
  let c := Real.cos phi
  let n2 := n * n
  let n3 := n2 * n
  let n4 := n3 * n
  let n5 := n4 * n
  let Ap := a * (1 - n + 5 * (n2 - n3) / 4 + 81 * (n4 - n5) / 64)
  let Bp := 3 * a * (n - n2 + 7 * (n3 - n4) / 8 + 55 * n5 / 64) / 2
  let Cp := 15 * a * (n2 - n3 + 3 * (n4 - n5) / 4) / 16
  let Dp := 35 * a * (n3 - n4 + 11 * n5 / 16) / 48
  let Ep := 315 * a * (n4 - n5) / 512
  let s2phi := 2 * s * c
  let c2phi := c * c - s * s
  let s4phi := 2 * s2phi * c2phi
  let c4phi := c2phi * c2phi - s2phi * s2phi
  let s6phi := s4phi * c2phi + s2phi * c4phi
  let s8phi := 2 * s4phi * c4phi
  Ap * phi - Bp * s2phi + Cp * s4phi - Dp * s6phi + Ep * s8phi

/-- The while(1) iteration of dmatm_tm_to_geographic (utm.cpp), with an
explicit fuel parameter.  Each pass computes T1 = S(phi)*k0, breaks when
|T1 - y| < 0.001 (TM_TO_GEOGRAPHIC_TOLERANCE_M) and otherwise multiplies
phi by y/T1.  A none result means the source loop is still running after
that many iterations; the source itself has no iteration bound and no
failure result. -/
noncomputable def dmatmLoop (a n k0 y : ℝ) : ℕ → ℝ → Option ℝ
  | 0, _ => none
  | fuel + 1, phi =>
      if |dmatmS a n phi * k0 - y| < 1 / 1000 then some phi
      else dmatmLoop a n k0 y fuel (phi * (y / (dmatmS a n phi * k0)))

/-- dmatm_tm_to_geographic (utm.cpp): legacy DMATM ellipsoidal inverse TM.
The iteration is fuel-indexed (see dmatmLoop); once the loop exits, the
closed-form correction series T10..T17 recovers (lat, lon). -/
noncomputable def dmatm_tm_to_geographic
    (a e2 k0 lon_mer FN FE N E : ℝ) (fuel : ℕ) : Option (ℝ × ℝ) :=
  let ep2 := e2 / (1 - e2)
  let f := 1 - Real.sqrt (1 - e2)
  let n := f / (2 - f)
  let b := a * (1 - f)
  let x := E - FE
  let y := N - FN
  match dmatmLoop a n k0 y fuel (y / b / k0) with
  | none => none
  | some phi =>
    let s := Real.sin phi
    let s2 := s * s
    let nu := a / Real.sqrt (1 - e2 * s2)
    let rho := nu / (1 - e2 * s2) * (1 - e2)
    let c := Real.cos phi
    let c2 := c * c
    let t := s / c
    let t2 := t * t
    let t4 := t2 * t2
    let t6 := t4 * t2
    let nuk0 := nu * k0
    let nuk02 := nuk0 * nuk0
    let nuk04 := nuk02 * nuk02
    let nuk06 := nuk04 * nuk02
    let t_rhonuk0k0 := t / (rho * nuk0 * k0)
    let nuck0inv := 1 / (nu * c * k0)
    let epc2 := ep2 * c2
    let epc4 := epc2 * epc2
    let epc6 := epc4 * epc2
    let epc8 := epc6 * epc2
    let T10 := t_rhonuk0k0 / 2
    let T11 := t_rhonuk0k0 / nuk02 *
      (5 + 3 * t2 + epc2 - 4 * epc4 - 9 * t2 * epc2) / 24
    let T12 := t_rhonuk0k0 / nuk04 *
      (61 + 90 * t2 + 46 * epc2 + 45 * t4 - 252 * t2 * epc2
        - 3 * epc4 + 100 * epc6 - 66 * t2 * epc4
        - 90 * t4 * epc2 + 88 * epc8 + 225 * t4 * epc4
        + 84 * t2 * epc6 - 192 * t2 * epc8) / 720
    let T13 := t_rhonuk0k0 / nuk06 *
      (1385 + 3633 * t2 + 4095 * t4 + 1575 * t6) / 40320
    let T14 := nuck0inv
    let T15 := nuck0inv / nuk02 * (1 + 2 * t2 + epc2) / 6
    let T16 := nuck0inv / nuk04 *
      (5 + 6 * epc2 + 28 * t2 - 3 * epc4 + 8 * t2 * epc2
        + 24 * t4 - 4 * epc6 + 4 * t2 * epc4 + 24 * t2 * epc6) / 120
    let T17 := nuck0inv / nuk06 * (61 + 662 * t2 + 1320 * t4 + 720 * t6) / 5040
    let x2 := x * x
    let x4 := x2 * x2
    let x6 := x4 * x2
    let x8 := x6 * x2
    some (phi - x2 * T10 + x4 * T11 - x6 * T12 + x8 * T13,
      lon_mer + x * (T14 - x2 * T15 + x4 * T16 - x6 * T17))

/-- Output record of geographic_to_grid: the resolved zone and hemisphere
out-parameters and the northing/easting out-parameters (Option-valued,
since the PS primitives can leave them unassigned; on the grid path the
hemisphere is always concrete so they are in fact always assigned). -/
structure GridOutput : Type where
  zone : ℕ
  hemi : Hemisphere
  N : Option ℝ
  E : Option ℝ

/-- geographic_to_grid (utm.cpp, 2025): the full forward grid conversion.
Zone/hemisphere resolution is resolveGrid (over degrees); the resolved
primitive is then invoked with the UPS constants k0 = 0.994,
FN = FE = 2000000 or the UTM constants k0 = 0.9996, FE = 500000, with the
ellipsoidal primitive when e2 is nonzero and the spherical one otherwise.
Degree inputs are converted to the radians the source works in. -/
noncomputable def geographic_to_grid
    (a e2 : ℝ) (lat lon : ℚ) (zone0 : ℕ) (hemi0 : Hemisphere) :
    Option GridOutput :=
  match resolveGrid lat lon zone0 hemi0 with
  | none => none
  | some r =>
    let latR : ℝ := (lat : ℝ) * π / 180
    let lonR : ℝ := ((normLon lon : ℚ) : ℝ) * π / 180
    match r.prim with
    | .ps hm =>
      let p := if e2 ≠ 0 then
          geographic_to_ps a e2 (994 / 1000) hm 2000000 2000000 latR lonR
        else
          geographic_to_ps_sphere a (994 / 1000) hm 2000000 2000000 latR lonR
      some ⟨r.zone, r.hemi, p.1, p.2⟩
    | .tm lonMer fn =>
      let lonMerR : ℝ := (lonMer : ℝ) * π / 180
      let p := if e2 ≠ 0 then
          geographic_to_tm a e2 (9996 / 10000) lonMerR (fn : ℝ) 500000 latR lonR
        else
          geographic_to_tm_sphere a (9996 / 10000) lonMerR (fn : ℝ) 500000 latR lonR
      some ⟨r.zone, r.hemi, some p.1, some p.2⟩

/-- resolveGrid fails exactly on out-of-range latitude. -/
theorem resolveGrid_eq_none_iff (lat lon : ℚ) (z0 : ℕ) (h0 : Hemisphere) :
    resolveGrid lat lon z0 h0 = none ↔ (90 < lat ∨ lat < -90) := by
  unfold resolveGrid
  by_cases h : 90 < lat ∨ lat < -90
  · rw [if_pos h]
    exact iff_of_true rfl h
  · rw [if_neg h]
    refine iff_of_false ?_ h
    simp only []
    split_ifs <;> simp

/-- Claim C1: under GRID_AUTO the Svalbard 12-degree partition is claimed
to apply for 72 <= lat < 84, 0 <= lon < 42.  In the 2025 source the
Svalbard branch is an else-if on the explicit-zone case, so under
GRID_AUTO the plain 6-degree formula is used instead: at lat 75, lon 10
the current code resolves zone 32 where the claim (and the pre-2025
version of the same routine, and the repository README) give zone 33. -/
theorem svalbard_auto_zone_bug :
    (resolveGrid 75 10 GRID_AUTO .north).map GridResult.zone = some 32 ∧
    (resolveGridPre2025 75 10 GRID_AUTO .north).map GridResult.zone = some 33 := by
  constructor <;>
    norm_num [resolveGrid, resolveGridPre2025, utmZoneAuto, utmZoneAutoPre2025,
      svalbardOverride, normLon, GRID_AUTO, UPS_NORTH, UPS_SOUTH, UTM_ZONE_AUTO,
      show Int.toNat 31 = 31 from rfl]

/-- Claim C4: at longitude exactly +180 degrees (which the normalization
step leaves untouched), the automatic zone formula floor((180+180)/6)+1
produces 61, which is stored into *zone where it aliases the UPS_NORTH
enum value, while a TM projection with central meridian 183 degrees is
dispatched: the returned zone is neither a UTM zone number 1..60 with a
TM dispatch nor a UPS marker consistent with the projection applied. -/
theorem zone_alias_at_lon180 :
    resolveGrid 0 180 GRID_AUTO .north = some ⟨UPS_NORTH, .north, .tm 183 0⟩ ∧
    ¬ zoneConsistent ⟨UPS_NORTH, .north, .tm 183 0⟩ := by
  refine ⟨?_, by decide⟩
  norm_num [resolveGrid, utmZoneAuto, svalbardOverride, normLon,
    GRID_AUTO, UPS_NORTH, UPS_SOUTH, UTM_ZONE_AUTO,
    show Int.toNat 60 = 60 from rfl]

/-- Claim C5: geographic_to_grid returns failure (none: no output is
produced) exactly when the latitude lies outside [-90, 90] degrees; for
every in-range latitude, any longitude and any zone/hemisphere request it
succeeds. -/
theorem geographic_to_grid_fails_iff
    (a e2 : ℝ) (lat lon : ℚ) (z0 : ℕ) (h0 : Hemisphere) :
    geographic_to_grid a e2 lat lon z0 h0 = none ↔ (90 < lat ∨ lat < -90) := by
  rw [← resolveGrid_eq_none_iff lat lon z0 h0]
  cases hres : resolveGrid lat lon z0 h0 with
  | none => simp [geographic_to_grid, hres]
  | some r =>
    obtain ⟨z, hm, pr⟩ := r
    cases pr <;> simp [geographic_to_grid, hres]

/-- Claim C6: under a GRID_AUTO request with in-range latitude, latitude
at least 84 degrees resolves to UPS-North and latitude below -80 degrees
to UPS-South, in both cases with the hemisphere output forced to the pole
whatever the hemisphere request was; otherwise the UTM path is dispatched
(a TM projection).  In particular latitude exactly 84 gives UPS-North
while any latitude below 84 (such as 83.999) gives a UTM zone. -/
theorem grid_auto_polar_selection (lat lon : ℚ) (h0 : Hemisphere)
    (hlo : -90 ≤ lat) (hhi : lat ≤ 90) :
    (84 ≤ lat →
      resolveGrid lat lon GRID_AUTO h0 = some ⟨UPS_NORTH, .north, .ps .north⟩) ∧
    (lat < -80 →
      resolveGrid lat lon GRID_AUTO h0 = some ⟨UPS_SOUTH, .south, .ps .south⟩) ∧
    (-80 ≤ lat → lat < 84 →
      ∃ r, resolveGrid lat lon GRID_AUTO h0 = some r ∧ r.prim.isTM = true) := by
  have hrange : ¬ (90 < lat ∨ lat < -90) := by push_neg; exact ⟨hhi, hlo⟩
  refine ⟨fun hge => ?_, fun hlt => ?_, fun hge hlt => ?_⟩
  · unfold resolveGrid
    rw [if_neg hrange, if_pos rfl, if_pos hge]
    rfl
  · unfold resolveGrid
    rw [if_neg hrange, if_pos rfl, if_neg (show ¬ 84 ≤ lat by linarith),
      if_pos hlt]
    rfl
  · unfold resolveGrid
    rw [if_neg hrange, if_pos rfl, if_neg (show ¬ 84 ≤ lat by linarith),
      if_neg (show ¬ lat < -80 by linarith)]
    rw [if_neg (show ¬ (UTM_ZONE_AUTO = UPS_NORTH ∨ UTM_ZONE_AUTO = UPS_SOUTH)
        by decide),
      if_pos (show UTM_ZONE_AUTO < 1 ∨ 60 < UTM_ZONE_AUTO by decide)]
    exact ⟨_, rfl, rfl⟩

/-- Witness for grid_auto_polar_selection: at latitude exactly 84 with a
HEMI_SOUTH request the resolver returns UPS-North with the hemisphere
forced to north. -/
theorem grid_auto_polar_selection_witness :
    resolveGrid 84 135 GRID_AUTO .south = some ⟨UPS_NORTH, .north, .ps .north⟩ :=
  (grid_auto_polar_selection 84 135 .south (by norm_num) (by norm_num)).1
    (by norm_num)

/-- Claim C9: grid_to_geographic fails exactly when the zone is not a UPS
marker and its value is outside [1,60] (so both AutoSelect sentinels
fail), or the zone is a UTM zone 1..60 and the hemisphere is neither
north nor south; a UPS zone succeeds for every hemisphere argument, which
is overridden to the pole of the marker. -/
theorem grid_to_geographic_validation (z : ℕ) (h : Hemisphere) :
    (gridToGeographicResolve z h = none ↔
      ((z ≠ UPS_NORTH ∧ z ≠ UPS_SOUTH ∧ (z < 1 ∨ 60 < z)) ∨
       (1 ≤ z ∧ z ≤ 60 ∧ h ≠ .north ∧ h ≠ .south))) ∧
    gridToGeographicResolve UPS_NORTH h = some (.north, .ps .north) ∧
    gridToGeographicResolve UPS_SOUTH h = some (.south, .ps .south) ∧
    gridToGeographicResolve GRID_AUTO h = none ∧
    gridToGeographicResolve UTM_ZONE_AUTO h = none := by
  refine ⟨?_, rfl, rfl, rfl, rfl⟩
  unfold gridToGeographicResolve UPS_NORTH UPS_SOUTH
  split_ifs with h1 h2 h3 <;> simp_all <;> omega

/-- Claim C10: the public PS primitives assign their out-parameters only
for a concrete hemisphere.  With HEMI_AUTO: geographic_to_ps writes the
easting using the south-hemisphere half-angle formula but never writes
the northing; geographic_to_ps_sphere writes neither output;
ps_to_geographic never writes the latitude and writes the longitude only
at the exact grid origin (as 0); ps_to_geographic_sphere writes neither
output.  With hemisphere north or south every output is assigned. -/
theorem ps_outputs_need_hemisphere
    (a e2 R k0 FN FE lat lon N E : ℝ) :
    (geographic_to_ps a e2 k0 .auto FN FE lat lon).1 = none ∧
    (geographic_to_ps a e2 k0 .auto FN FE lat lon).2 =
      (geographic_to_ps a e2 k0 .south FN FE lat lon).2 ∧
    geographic_to_ps_sphere R k0 .auto FN FE lat lon = (none, none) ∧
    (ps_to_geographic a e2 k0 .auto FN FE N E).1 = none ∧
    (ps_to_geographic a e2 k0 .auto FN FE N E).2 =
      (if E - FE = 0 ∧ N - FN = 0 then some 0 else none) ∧
    ps_to_geographic_sphere R k0 .auto FN FE N E = (none, none) ∧
    ((geographic_to_ps a e2 k0 .north FN FE lat lon).1.isSome = true ∧
     (geographic_to_ps a e2 k0 .north FN FE lat lon).2.isSome = true ∧
     (geographic_to_ps a e2 k0 .south FN FE lat lon).1.isSome = true ∧
     (geographic_to_ps a e2 k0 .south FN FE lat lon).2.isSome = true) ∧
    ((ps_to_geographic a e2 k0 .north FN FE N E).1.isSome = true ∧
     (ps_to_geographic a e2 k0 .north FN FE N E).2.isSome = true ∧
     (ps_to_geographic a e2 k0 .south FN FE N E).1.isSome = true ∧
     (ps_to_geographic a e2 k0 .south FN FE N E).2.isSome = true) ∧
    ((geographic_to_ps_sphere R k0 .north FN FE lat lon).1.isSome = true ∧
     (geographic_to_ps_sphere R k0 .north FN FE lat lon).2.isSome = true ∧
     (ps_to_geographic_sphere R k0 .south FN FE N E).1.isSome = true ∧
     (ps_to_geographic_sphere R k0 .south FN FE N E).2.isSome = true) := by
  refine ⟨rfl, rfl, rfl, ?_, ?_, rfl, ⟨rfl, rfl, rfl, rfl⟩, ⟨?_, ?_, ?_, ?_⟩,
    ⟨rfl, rfl, rfl, rfl⟩⟩ <;>
    by_cases hxy : E - FE = 0 ∧ N - FN = 0 <;>
    simp [ps_to_geographic, hxy]

/-- With scale factor k0 = 0 the tolerance check of the legacy inverse TM
iteration compares |0 - y| against 0.001 on every pass, so for |y| at
least 0.001 the loop never exits, whatever the fuel. -/
theorem dmatmLoop_zero_k0_diverges (a n y : ℝ) (hy : 1 / 1000 ≤ |y|) :
    ∀ fuel phi, dmatmLoop a n 0 y fuel phi = none := by
  intro fuel
  induction fuel with
  | zero => intro phi; rfl
  | succ k ih =>
    intro phi
    rw [dmatmLoop]
    rw [if_neg (by simpa using not_lt.mpr hy)]
    exact ih _

/-- Claim C3 counterexample: at the concrete input a = 1, e2 = 0, k0 = 0,
lon_mer = FN = FE = 0, N = 1, E = 0, the tolerance 0.001 is never met
(every pass compares |S*k0 - y| = |0 - 1| = 1 against 0.001), so the
embedded dmatm_tm_to_geographic returns no result at any iteration count:
the source while(1) loop runs forever, there is no iteration cap, and no
non-convergence error is ever surfaced (the function has no error
result at all). -/
theorem dmatm_inverse_nonconvergence :
    ¬ ∃ fuel r, dmatm_tm_to_geographic 1 0 0 0 0 0 1 0 fuel = some r := by
  rintro ⟨fuel, r, h⟩
  unfold dmatm_tm_to_geographic at h
  norm_num [Real.sqrt_one] at h
  rw [dmatmLoop_zero_k0_diverges 1 0 1 (by norm_num) fuel] at h
  simp at h

/-- Claim C3 (amended): the legacy inverse TM iteration exits only through
the 0.001 m tolerance check: whenever the loop terminates, the value it
returns satisfies |S(phi)*k0 - y| < 0.001.  There is no iteration cap and
no non-convergence error in the source. -/
theorem dmatmLoop_exits_only_on_tolerance
    (a n k0 y : ℝ) (fuel : ℕ) (phi r : ℝ)
    (h : dmatmLoop a n k0 y fuel phi = some r) :
    |dmatmS a n r * k0 - y| < 1 / 1000 := by
  induction fuel generalizing phi with
  | zero => exact absurd h (by simp [dmatmLoop])
  | succ k ih =>
    rw [dmatmLoop] at h
    by_cases hc : |dmatmS a n phi * k0 - y| < 1 / 1000
    · rw [if_pos hc] at h
      cases h
      exact hc
    · rw [if_neg hc] at h
      exact ih _ h

/-- Witness for dmatmLoop_exits_only_on_tolerance: with a = 1, n = 0,
k0 = 1, y = 1 the loop exits immediately at phi = 1 and the tolerance
indeed holds there. -/
theorem dmatmLoop_exits_only_on_tolerance_witness :
    dmatmLoop 1 0 1 1 1 1 = some 1 ∧ |dmatmS 1 0 1 * 1 - 1| < 1 / 1000 := by
  have hS : dmatmS 1 0 1 = 1 := by
    unfold dmatmS
    norm_num
  have h : dmatmLoop 1 0 1 1 1 1 = some 1 := by
    rw [dmatmLoop, if_pos (by rw [hS]; norm_num)]
  exact ⟨h, dmatmLoop_exits_only_on_tolerance 1 0 1 1 1 1 1 h⟩

/-- atanh 0 = 0. -/
theorem atanh_zero : atanh 0 = 0 := by
  unfold atanh
  norm_num

/-- The C library identity sinh(atanh s) = s/sqrt(1-s^2) for s in (-1,1),
for the atanh embedding via the logarithm. -/
theorem sinh_atanh (s : ℝ) (h1 : -1 < s) (h2 : s < 1) :
    Real.sinh (atanh s) = s / Real.sqrt (1 - s ^ 2) := by
  have h1p : (0:ℝ) < 1 + s := by linarith
  have h2p : (0:ℝ) < 1 - s := by linarith
  have hu : (0:ℝ) < (1 + s) / (1 - s) := div_pos h1p h2p
  have hA : (0:ℝ) < Real.sqrt (1 + s) := Real.sqrt_pos.mpr h1p
  have hB : (0:ℝ) < Real.sqrt (1 - s) := Real.sqrt_pos.mpr h2p
  have hv : Real.exp (Real.log ((1 + s) / (1 - s)) / 2) =
      Real.sqrt ((1 + s) / (1 - s)) := by
    rw [← Real.log_sqrt (le_of_lt hu)]
    exact Real.exp_log (Real.sqrt_pos.mpr hu)
  have hsq : Real.sqrt ((1 + s) / (1 - s)) =
      Real.sqrt (1 + s) / Real.sqrt (1 - s) := Real.sqrt_div (le_of_lt h1p) _
  have hs2 : 1 - s ^ 2 = (1 + s) * (1 - s) := by ring
  have hprod : Real.sqrt (1 - s ^ 2) = Real.sqrt (1 + s) * Real.sqrt (1 - s) := by
    rw [hs2, Real.sqrt_mul (le_of_lt h1p)]
  have hA2 : Real.sqrt (1 + s) * Real.sqrt (1 + s) = 1 + s :=
    Real.mul_self_sqrt (le_of_lt h1p)
  have hB2 : Real.sqrt (1 - s) * Real.sqrt (1 - s) = 1 - s :=
    Real.mul_self_sqrt (le_of_lt h2p)
  unfold atanh
  rw [Real.sinh_eq, Real.exp_neg, hv, hsq, hprod]
  rw [div_eq_div_iff (by positivity) (by positivity)]
  field_simp
  nlinarith [hA2, hB2, hA, hB]

/-- For latitudes strictly between the poles, sinh(atanh(sin lat)) is
tan lat. -/
theorem sinh_atanh_sin (lat : ℝ) (h1 : -(π / 2) < lat) (h2 : lat < π / 2) :
    Real.sinh (atanh (Real.sin lat)) = Real.tan lat := by
  have hcos : (0:ℝ) < Real.cos lat := Real.cos_pos_of_mem_Ioo ⟨h1, h2⟩
  have hs1 : -1 < Real.sin lat := by
    have := Real.neg_one_le_sin lat
    rcases eq_or_lt_of_le this with h | h
    · exfalso
      have : Real.cos lat = 0 := by
        have h4 := Real.sin_sq_add_cos_sq lat
        nlinarith [h.symm]
      linarith
    · exact h
  have hs2 : Real.sin lat < 1 := by
    have := Real.sin_le_one lat
    rcases eq_or_lt_of_le this with h | h
    · exfalso
      have : Real.cos lat = 0 := by
        have h4 := Real.sin_sq_add_cos_sq lat
        nlinarith
      linarith
    · exact h
  rw [sinh_atanh _ hs1 hs2]
  have : 1 - Real.sin lat ^ 2 = Real.cos lat ^ 2 := by
    have h4 := Real.sin_sq_add_cos_sq lat
    linarith
  rw [this, Real.sqrt_sq (le_of_lt hcos), Real.tan_eq_sin_div_cos]

/-- Claim C8 (amended): exactly on the central meridian the point-scale
output of geographic_to_tm_with_convergence_and_scale equals the scale
factor k0 (not 1.0); here proved exactly for the spherical case e2 = 0,
any nonzero semi-major axis and any latitude strictly between the poles.
It equals 1.0 only for k0 = 1. -/
theorem tm_scale_on_central_meridian (a k0 lonMer FN FE lat : ℝ)
    (ha : a ≠ 0) (h1 : -(π / 2) < lat) (h2 : lat < π / 2) :
    (geographic_to_tm_with_convergence_and_scale a 0 k0 lonMer FN FE lat lonMer).k
      = k0 := by
  have hcos : (0:ℝ) < Real.cos lat := Real.cos_pos_of_mem_Ioo ⟨h1, h2⟩
  unfold geographic_to_tm_with_convergence_and_scale
  simp only [poly4, SQR]
  norm_num [Real.sqrt_one, Real.sqrt_zero, atanh_zero, Real.sin_zero,
    Real.cos_zero, Real.sinh_zero, Real.cosh_zero, sub_self]
  rw [sinh_atanh_sin lat h1 h2]
  have ht : (0:ℝ) < Real.tan lat * Real.tan lat + 1 := by
    nlinarith [mul_self_nonneg (Real.tan lat)]
  rw [show (1 + Real.tan lat * Real.tan lat) /
      (Real.tan lat * Real.tan lat + 1) = 1 by
    rw [div_eq_one_iff_eq (ne_of_gt ht)]; ring]
  rw [Real.sqrt_one]
  field_simp

/-- Witness for tm_scale_on_central_meridian: with a = 1, e2 = 0, k0 = 3,
central meridian 5, false origin (7, 11), latitude 0 and longitude 5 (on
the central meridian), the point-scale output is exactly 3. -/
theorem tm_scale_on_central_meridian_witness :
    (geographic_to_tm_with_convergence_and_scale 1 0 3 5 7 11 0 5).k = 3 :=
  tm_scale_on_central_meridian 1 3 5 7 11 0 (by norm_num)
    (neg_lt_zero.mpr Real.pi_div_two_pos) Real.pi_div_two_pos

/-- Claim C8 counterexample: the claim quantifies over every scale factor
k0 and asserts the point-scale output is 1.0 within 1e-9 on the central
meridian; at a = 1, e2 = 0, k0 = 1/2, lat = lon = lon_mer = 0 the scale
output is exactly 1/2, which is not within 1e-9 of 1.0. -/
theorem tm_scale_counterexample :
    ¬ (|(geographic_to_tm_with_convergence_and_scale 1 0 (1/2) 0 0 0 0 0).k - 1|
        ≤ 1 / 1000000000) := by
  have hk : (geographic_to_tm_with_convergence_and_scale 1 0 (1/2) 0 0 0 0 0).k
      = 1 / 2 := by
    unfold geographic_to_tm_with_convergence_and_scale
    simp only [poly4, SQR]
    norm_num [Real.sqrt_one, Real.sqrt_zero, atanh_zero, Real.sin_zero,
      Real.cos_zero, Real.sinh_zero, Real.cosh_zero, Real.tan_zero,
      Real.arctan_zero]
  rw [hk]
  rw [show |(1:ℝ) / 2 - 1| = 1 / 2 by
    rw [show (1:ℝ) / 2 - 1 = -(1 / 2) by norm_num, abs_neg,
      abs_of_pos (by norm_num : (0:ℝ) < 1 / 2)]]
  norm_num

/-- atanh is positive on (0,1). -/
theorem atanh_pos (x : ℝ) (h0 : 0 < x) (h1 : x < 1) : 0 < atanh x := by
  unfold atanh
  have h : 1 < (1 + x) / (1 - x) := by
    rw [lt_div_iff (by linarith)]
    linarith
  have := Real.log_pos h
  linarith

/-- atanh is negative on (-1,0). -/
theorem atanh_neg (x : ℝ) (h0 : -1 < x) (h1 : x < 0) : atanh x < 0 := by
  unfold atanh
  have hp : (0:ℝ) < (1 + x) / (1 - x) := div_pos (by linarith) (by linarith)
  have hl : (1 + x) / (1 - x) < 1 := by
    rw [div_lt_one (by linarith)]
    linarith
  have := Real.log_neg hp hl
  linarith

/-- Longitudes already in [-180, 180] pass through normalization. -/
theorem normLon_of_mem (lon : ℚ) (h1 : -180 ≤ lon) (h2 : lon ≤ 180) :
    normLon lon = lon := by
  unfold normLon
  rw [if_neg (by push_neg; exact ⟨h2, h1⟩)]

/-- Outside the Svalbard region the else-if branch keeps an explicit
zone unchanged. -/
theorem svalbardOverride_eq_self (lat lon : ℚ) (z : ℕ)
    (h : ¬ (72 ≤ lat ∧ lat < 84 ∧ 0 ≤ lon ∧ lon < 42)) :
    svalbardOverride lat lon z = z := by
  unfold svalbardOverride
  split_ifs with h1 h2 h3 h4 h5
  · exact absurd ⟨h1.1, h1.2.1, h1.2.2, by linarith⟩ h
  · exact absurd ⟨h1.1, h1.2.1, h1.2.2, by linarith⟩ h
  · exact absurd ⟨h1.1, h1.2.1, h1.2.2, by linarith⟩ h
  · exact absurd ⟨h1.1, h1.2.1, h1.2.2, h5⟩ h
  · rfl
  · rfl

/-- The plain 6-degree formula: for a longitude strictly inside the span
of zone z, the automatic zone evaluates to z (away from the Norway
exception region). -/
theorem utmZoneAuto_eq (lat lon : ℚ) (z : ℕ) (hz : 1 ≤ z)
    (hin1 : ((z:ℚ) - 1) * 6 - 180 < lon) (hin2 : lon < (z:ℚ) * 6 - 180)
    (hnor : ¬ (56 ≤ lat ∧ lat < 64 ∧ 3 ≤ lon ∧ lon < 12)) :
    utmZoneAuto lat lon = z := by
  unfold utmZoneAuto
  rw [if_neg hnor]
  have hfloor : ⌊(lon + 180) / 6⌋ = (z:ℤ) - 1 := by
    rw [Int.floor_eq_iff]
    constructor
    · push_cast
      rw [le_div_iff (by norm_num : (0:ℚ) < 6)]
      linarith
    · push_cast
      rw [div_lt_iff (by norm_num : (0:ℚ) < 6)]
      linarith
  rw [hfloor]
  omega

/-- An explicit zone z in [1,60], outside the Svalbard region, is kept by
the resolver, with the central meridian (z-1)*6 - 180 + 3 degrees. -/
theorem resolveGrid_explicit_zone (lat lon : ℚ) (z : ℕ) (h0 : Hemisphere)
    (hz1 : 1 ≤ z) (hz2 : z ≤ 60)
    (hlat1 : -90 ≤ lat) (hlat2 : lat ≤ 90)
    (hlon1 : -180 ≤ lon) (hlon2 : lon ≤ 180)
    (hsv : ¬ (72 ≤ lat ∧ lat < 84 ∧ 0 ≤ lon ∧ lon < 42)) :
    resolveGrid lat lon z h0 =
      some ⟨z, utmHemi lat h0,
        .tm (((z:ℚ) - 1) * 6 - 180 + 3) (utmFn (utmHemi lat h0))⟩ := by
  unfold resolveGrid
  rw [if_neg (show ¬ (90 < lat ∨ lat < -90) by push_neg; exact ⟨hlat2, hlat1⟩)]
  rw [if_neg (show ¬ z = GRID_AUTO by unfold GRID_AUTO; omega)]
  rw [if_neg (show ¬ (z = UPS_NORTH ∨ z = UPS_SOUTH) by
    unfold UPS_NORTH UPS_SOUTH; omega)]
  rw [if_neg (show ¬ (z < 1 ∨ 60 < z) by omega)]
  rw [normLon_of_mem lon hlon1 hlon2]
  rw [svalbardOverride_eq_self lat lon z hsv]
  rfl

/-- Under GRID_AUTO in the UTM latitude band, a longitude strictly inside
the span of zone z away from the Norway exception resolves to zone z with
the same central meridian and hemisphere defaulting. -/
theorem resolveGrid_auto_inside (lat lon : ℚ) (z : ℕ) (h0 : Hemisphere)
    (hz1 : 1 ≤ z) (hz2 : z ≤ 60)
    (hlat1 : -80 ≤ lat) (hlat2 : lat < 84) (hlat3 : -90 ≤ lat)
    (hin1 : ((z:ℚ) - 1) * 6 - 180 < lon) (hin2 : lon < (z:ℚ) * 6 - 180)
    (hnor : ¬ (56 ≤ lat ∧ lat < 64 ∧ 3 ≤ lon ∧ lon < 12)) :
    resolveGrid lat lon GRID_AUTO h0 =
      some ⟨z, utmHemi lat h0,
        .tm (((z:ℚ) - 1) * 6 - 180 + 3) (utmFn (utmHemi lat h0))⟩ := by
  have hlon1 : (-180:ℚ) ≤ lon := by
    have : ((1:ℚ) - 1) * 6 - 180 ≤ ((z:ℚ) - 1) * 6 - 180 := by
      have : (1:ℚ) ≤ (z:ℚ) := by exact_mod_cast hz1
      linarith
    linarith
  have hlon2 : lon ≤ 180 := by
    have : (z:ℚ) * 6 - 180 ≤ 60 * 6 - 180 := by
      have : (z:ℚ) ≤ 60 := by exact_mod_cast hz2
      linarith
    linarith
  unfold resolveGrid
  rw [if_neg (show ¬ (90 < lat ∨ lat < -90) by push_neg; constructor <;> linarith)]
  rw [if_pos rfl]
  rw [if_neg (show ¬ 84 ≤ lat by linarith)]
  rw [if_neg (show ¬ lat < -80 by linarith)]
  rw [if_neg (show ¬ (UTM_ZONE_AUTO = UPS_NORTH ∨ UTM_ZONE_AUTO = UPS_SOUTH)
    by decide)]
  rw [if_pos (show UTM_ZONE_AUTO < 1 ∨ 60 < UTM_ZONE_AUTO by decide)]
  rw [normLon_of_mem lon hlon1 hlon2]
  rw [utmZoneAuto_eq lat lon z hz1 hin1 hin2 hnor]
  rfl

/-- Claim C2 (amended): an explicit UTM zone z in 1..60 is preserved, and
the projection uses central meridian (z-1)*6 - 180 + 3 degrees, provided
the point is not in the Svalbard override region (72 <= lat < 84,
0 <= lon < 42), where the 2025 code overrides even explicit zones; and
for a point strictly inside zone z whose latitude lies in the UTM auto
band (-80 <= lat < 84) and which is not captured by the Norway exception
(56 <= lat < 64, 3 <= lon < 12), the calls with explicit zone z and with
GRID_AUTO produce identical results (in particular identical northing
and easting), for every ellipsoid. -/
theorem utm_explicit_zone_amended (a e2 : ℝ) (lat lon : ℚ) (z : ℕ)
    (h0 : Hemisphere)
    (hz1 : 1 ≤ z) (hz2 : z ≤ 60)
    (hlat1 : -90 ≤ lat) (hlat2 : lat ≤ 90)
    (hlon1 : -180 ≤ lon) (hlon2 : lon ≤ 180)
    (hsv : ¬ (72 ≤ lat ∧ lat < 84 ∧ 0 ≤ lon ∧ lon < 42)) :
    resolveGrid lat lon z h0 =
      some ⟨z, utmHemi lat h0,
        .tm (((z:ℚ) - 1) * 6 - 180 + 3) (utmFn (utmHemi lat h0))⟩ ∧
    (((z:ℚ) - 1) * 6 - 180 < lon → lon < (z:ℚ) * 6 - 180 →
      ¬ (56 ≤ lat ∧ lat < 64 ∧ 3 ≤ lon ∧ lon < 12) →
      -80 ≤ lat → lat < 84 →
      geographic_to_grid a e2 lat lon z h0 =
        geographic_to_grid a e2 lat lon GRID_AUTO h0) := by
  refine ⟨resolveGrid_explicit_zone lat lon z h0 hz1 hz2 hlat1 hlat2 hlon1
    hlon2 hsv, fun hin1 hin2 hnor hband1 hband2 => ?_⟩
  have hsame : resolveGrid lat lon z h0 = resolveGrid lat lon GRID_AUTO h0 := by
    rw [resolveGrid_explicit_zone lat lon z h0 hz1 hz2 hlat1 hlat2 hlon1
      hlon2 hsv,
      resolveGrid_auto_inside lat lon z h0 hz1 hz2 hband1 hband2 hlat1
      hin1 hin2 hnor]
  unfold geographic_to_grid
  rw [hsame]

/-- Witness for utm_explicit_zone_amended: zone 17, latitude 10,
longitude -80 (strictly inside the zone 17 span -84..-78): the explicit
zone is kept with central meridian -81 degrees, and explicit-zone and
GRID_AUTO calls agree on the WGS-ish sphere a = 1, e2 = 0. -/
theorem utm_explicit_zone_amended_witness :
    resolveGrid 10 (-80) 17 .north =
      some ⟨17, utmHemi 10 .north,
        .tm (((17:ℚ) - 1) * 6 - 180 + 3) (utmFn (utmHemi 10 .north))⟩ ∧
    geographic_to_grid 1 0 10 (-80) 17 .north =
      geographic_to_grid 1 0 10 (-80) GRID_AUTO .north := by
  have h := utm_explicit_zone_amended 1 0 10 (-80) 17 .north (by norm_num)
    (by norm_num) (by norm_num) (by norm_num) (by norm_num) (by norm_num)
    (by norm_num)
  exact ⟨h.1, h.2 (by norm_num) (by norm_num) (by norm_num) (by norm_num)
    (by norm_num)⟩

/-- On the sphere path (e2 = 0), geographic_to_grid applies the spherical
TM primitive to the parameters computed by the resolver. -/
theorem geographic_to_grid_tm_sphere (a : ℝ) (lat lon : ℚ) (z0 : ℕ)
    (h0 : Hemisphere) (z : ℕ) (hm : Hemisphere) (lonMer fn : ℚ)
    (hres : resolveGrid lat lon z0 h0 = some ⟨z, hm, .tm lonMer fn⟩) :
    geographic_to_grid a 0 lat lon z0 h0 =
      some ⟨z, hm,
        some ((geographic_to_tm_sphere a (9996 / 10000) ((lonMer:ℝ) * π / 180)
          (fn:ℝ) 500000 ((lat:ℝ) * π / 180)
          (((normLon lon : ℚ):ℝ) * π / 180)).1),
        some ((geographic_to_tm_sphere a (9996 / 10000) ((lonMer:ℝ) * π / 180)
          (fn:ℝ) 500000 ((lat:ℝ) * π / 180)
          (((normLon lon : ℚ):ℝ) * π / 180)).2)⟩ := by
  unfold geographic_to_grid
  rw [hres]
  norm_num

/-- On the sphere path (e2 = 0), geographic_to_grid applies the spherical
PS primitive with the UPS constants to the parameters computed by the
resolver. -/
theorem geographic_to_grid_ps_sphere (a : ℝ) (lat lon : ℚ) (z0 : ℕ)
    (h0 : Hemisphere) (z : ℕ) (hm hp : Hemisphere)
    (hres : resolveGrid lat lon z0 h0 = some ⟨z, hm, .ps hp⟩) :
    geographic_to_grid a 0 lat lon z0 h0 =
      some ⟨z, hm,
        (geographic_to_ps_sphere a (994 / 1000) hp 2000000 2000000
          ((lat:ℝ) * π / 180) (((normLon lon : ℚ):ℝ) * π / 180)).1,
        (geographic_to_ps_sphere a (994 / 1000) hp 2000000 2000000
          ((lat:ℝ) * π / 180) (((normLon lon : ℚ):ℝ) * π / 180)).2⟩ := by
  unfold geographic_to_grid
  rw [hres]
  norm_num

/-- Claim C2 counterexample.  Three failures of the claim as stated, all
on the sphere a = 1, e2 = 0 with a HEMI_NORTH request.  First, an
explicit zone 32 request at lat 75, lon 10 returns zone 33 (the 2025
Svalbard else-if overrides explicit zones), not 32.  Second, at the
Norway exception point lat 60, lon 4, strictly inside the span of zone
31, the explicit zone 31 call and the GRID_AUTO call (which resolves to
zone 32) produce different eastings, one above and one below the 500 km
false easting.  Third, at lat 85, lon 3, strictly inside the span of
zone 31, the explicit zone 31 call produces an easting of exactly 500000
while the GRID_AUTO call dispatches UPS and produces an easting above
2000000. -/
theorem utm_explicit_zone_counterexample :
    (resolveGrid 75 10 32 .north).map GridResult.zone = some 33 ∧
    (geographic_to_grid 1 0 60 4 31 .north).map GridOutput.E ≠
      (geographic_to_grid 1 0 60 4 GRID_AUTO .north).map GridOutput.E ∧
    (geographic_to_grid 1 0 85 3 31 .north).map GridOutput.E ≠
      (geographic_to_grid 1 0 85 3 GRID_AUTO .north).map GridOutput.E := by
  refine ⟨?_, ?_, ?_⟩
  · norm_num [resolveGrid, svalbardOverride, normLon, GRID_AUTO, UPS_NORTH,
      UPS_SOUTH, UTM_ZONE_AUTO]
  · have hres1 : resolveGrid 60 4 31 .north = some ⟨31, .north, .tm 3 0⟩ := by
      norm_num [resolveGrid, svalbardOverride, normLon, GRID_AUTO, UPS_NORTH,
        UPS_SOUTH, UTM_ZONE_AUTO]
    have hres2 : resolveGrid 60 4 GRID_AUTO .north =
        some ⟨32, .north, .tm 9 0⟩ := by
      norm_num [resolveGrid, utmZoneAuto, normLon, GRID_AUTO, UPS_NORTH,
        UPS_SOUTH, UTM_ZONE_AUTO]
    rw [geographic_to_grid_tm_sphere 1 60 4 31 .north 31 .north 3 0 hres1,
      geographic_to_grid_tm_sphere 1 60 4 GRID_AUTO .north 32 .north 9 0 hres2]
    have hnorm : normLon (4:ℚ) = 4 := by norm_num [normLon]
    rw [hnorm]
    unfold geographic_to_tm_sphere
    have hsin1 : (0:ℝ) < Real.sin (π / 180) :=
      Real.sin_pos_of_pos_of_lt_pi (by positivity)
        (div_lt_self Real.pi_pos (by norm_num))
    have hsin1le : Real.sin (π / 180) ≤ 1 := Real.sin_le_one _
    have hsin2 : (0:ℝ) < Real.sin (π / 36) :=
      Real.sin_pos_of_pos_of_lt_pi (by positivity)
        (div_lt_self Real.pi_pos (by norm_num))
    have hsin2le : Real.sin (π / 36) ≤ 1 := Real.sin_le_one _
    have hc : Real.cos (((60:ℚ):ℝ) * π / 180) = 1 / 2 := by
      rw [show ((60:ℚ):ℝ) * π / 180 = π / 3 by push_cast; ring]
      exact Real.cos_pi_div_three
    have harg1 : ((4:ℚ):ℝ) * π / 180 - ((3:ℚ):ℝ) * π / 180 = π / 180 := by
      push_cast; ring
    have harg2 : ((4:ℚ):ℝ) * π / 180 - ((9:ℚ):ℝ) * π / 180 = -(π / 36) := by
      push_cast; ring
    have hat1 : 0 < atanh (Real.cos (((60:ℚ):ℝ) * π / 180) *
        Real.sin (((4:ℚ):ℝ) * π / 180 - ((3:ℚ):ℝ) * π / 180)) := by
      rw [hc, harg1]
      exact atanh_pos _ (by linarith) (by linarith)
    have hat2 : atanh (Real.cos (((60:ℚ):ℝ) * π / 180) *
        Real.sin (((4:ℚ):ℝ) * π / 180 - ((9:ℚ):ℝ) * π / 180)) < 0 := by
      rw [hc, harg2, Real.sin_neg]
      exact atanh_neg _ (by linarith) (by linarith)
    simp only [Option.map_some', ne_eq, Option.some.injEq]
    intro hEq
    linarith [hat1, hat2, hEq]
  · have hres1 : resolveGrid 85 3 31 .north = some ⟨31, .north, .tm 3 0⟩ := by
      norm_num [resolveGrid, svalbardOverride, normLon, GRID_AUTO, UPS_NORTH,
        UPS_SOUTH, UTM_ZONE_AUTO]
    have hres2 : resolveGrid 85 3 GRID_AUTO .north =
        some ⟨61, .north, .ps .north⟩ := by
      norm_num [resolveGrid, normLon, GRID_AUTO, UPS_NORTH, UPS_SOUTH,
        UTM_ZONE_AUTO]
    rw [geographic_to_grid_tm_sphere 1 85 3 31 .north 31 .north 3 0 hres1,
      geographic_to_grid_ps_sphere 1 85 3 GRID_AUTO .north 61 .north .north
        hres2]
    have hnorm : normLon (3:ℚ) = 3 := by norm_num [normLon]
    rw [hnorm]
    unfold geographic_to_tm_sphere geographic_to_ps_sphere
    have hE1 : (500000:ℝ) + 1 * (9996 / 10000) *
        atanh (Real.cos (((85:ℚ):ℝ) * π / 180) *
          Real.sin (((3:ℚ):ℝ) * π / 180 - ((3:ℚ):ℝ) * π / 180)) = 500000 := by
      rw [show ((3:ℚ):ℝ) * π / 180 - ((3:ℚ):ℝ) * π / 180 = 0 by ring,
        Real.sin_zero, mul_zero, atanh_zero, mul_zero, add_zero]
    have htan : (0:ℝ) < Real.tan (π / 4 - ((85:ℚ):ℝ) * π / 180 / 2) := by
      rw [show π / 4 - ((85:ℚ):ℝ) * π / 180 / 2 = π / 72 by push_cast; ring]
      exact Real.tan_pos_of_pos_of_lt_pi_div_two (by positivity)
        (by rw [div_lt_div_iff (by norm_num) (by norm_num)]; nlinarith
          [Real.pi_pos])
    have hsin : (0:ℝ) < Real.sin (((3:ℚ):ℝ) * π / 180) := by
      rw [show ((3:ℚ):ℝ) * π / 180 = π / 60 by push_cast; ring]
      exact Real.sin_pos_of_pos_of_lt_pi (by positivity)
        (div_lt_self Real.pi_pos (by norm_num))
    simp only [Option.map_some', ne_eq, Option.some.injEq]
    intro hEq
    rw [hE1] at hEq
    nlinarith [mul_pos htan hsin, hEq]

end Utm
